import Mathlib

/-!
Shallow embedding of the EzCensor redaction pipeline.

Sources embedded here:
* src/services/ollama_service.py  (OllamaService.analyze_text_for_pii,
  OllamaService.generate_redaction_suggestions, OllamaService._generate_replacement)
* src/processors/txt_processor.py  (TextProcessor.extract_text,
  TextProcessor.apply_redactions, TextProcessor.process_file)
* src/processors/pdf_processor.py  (PDFProcessor.apply_redactions, PDFProcessor.process_file)
* src/processors/image_processor.py (ImageProcessor.apply_redactions, ImageProcessor.process_file)
* src/processors/base_processor.py (ProcessingResult, BaseProcessor.create_temp_file)

External effects (the Ollama transport, json.loads, fitz, easyocr, PIL, the
file system) are modelled as explicit parameters or as a small association-list
file store.  Confidences are rationals.
-/

/-- One detected sensitive span, as produced by the oracle JSON
(`details` entries with keys type, text, confidence, start_pos, end_pos). -/
structure Finding where
  type : String
  text : String
  confidence : ℚ
  start_pos : Option Int := none
  end_pos : Option Int := none
  deriving DecidableEq

/-- Result dictionary of `OllamaService.analyze_text_for_pii`. -/
structure AnalysisResult where
  found_pii : Bool
  categories : List String
  details : List Finding
  recommendation : String
  raw_response : Option String := none
  error : Option String := none
  deriving DecidableEq

/-- One redaction suggestion dictionary, as appended by
`OllamaService.generate_redaction_suggestions`. -/
structure RedactionSuggestion where
  text : String
  replacement : String
  type : String
  confidence : ℚ
  deriving DecidableEq

/-- Return value of `OllamaService.generate_redaction_suggestions`. -/
structure SuggestionSet where
  needs_redaction : Bool
  suggestions : List RedactionSuggestion
  deriving DecidableEq

/-- The static replacement table of `OllamaService._generate_replacement`. -/
def replacements : List (String × String) :=
  [("name", "[NAME REDACTED]"),
   ("email", "[EMAIL REDACTED]"),
   ("phone", "[PHONE REDACTED]"),
   ("address", "[ADDRESS REDACTED]"),
   ("credit_card", "[CARD NUMBER REDACTED]"),
   ("ssn", "[SSN REDACTED]"),
   ("bank_account", "[ACCOUNT NUMBER REDACTED]"),
   ("id_number", "[ID NUMBER REDACTED]"),
   ("date_of_birth", "[DOB REDACTED]"),
   ("medical", "[MEDICAL INFO REDACTED]")]

/-- Python `str.lower()` (ASCII view, characterwise), defined over the
character list so that the kernel can evaluate it. -/
def pyLower (s : String) : String :=
  String.mk (s.data.map Char.toLower)

/-- Python `str.upper()` (ASCII view, characterwise). -/
def pyUpper (s : String) : String :=
  String.mk (s.data.map Char.toUpper)

/-- Python `str.strip()`: drop leading and trailing whitespace. -/
def pyStrip (s : String) : String :=
  String.mk (((s.data.dropWhile Char.isWhitespace).reverse.dropWhile
    Char.isWhitespace).reverse)

/-- `OllamaService._generate_replacement`: dictionary lookup on the lowercased
category with the generic fallback default. -/
def generate_replacement (pii_type : String) : String :=
  (replacements.lookup (pyLower pii_type)).getD "[SENSITIVE INFO REDACTED]"

/-- `OllamaService.generate_redaction_suggestions`.  The confidence threshold
`Config.CONFIDENCE_THRESHOLD` is passed as the parameter `threshold`.  The
Python loop appends one suggestion per detail whose confidence passes the
threshold; it is rendered as a left fold appending to the accumulator. -/
def generate_redaction_suggestions (r : AnalysisResult) (threshold : ℚ) : SuggestionSet :=
  if r.found_pii = false then
    { needs_redaction := false, suggestions := [] }
  else
    let suggestions := r.details.foldl
      (fun acc d =>
        if threshold ≤ d.confidence then
          acc ++ [{ text := d.text, replacement := generate_replacement d.type,
                    type := d.type, confidence := d.confidence }]
        else acc) []
    { needs_redaction := decide (0 < suggestions.length), suggestions := suggestions }

/-- `OllamaService.analyze_text_for_pii`, abstracted over its two external
effects: the transport call (argument of type `Except String String`, where
`Except.error` is a raised transport exception with its message and
`Except.ok` is the raw response text) and JSON parsing (`parse`, standing for
`json.loads` plus the dictionary shape; `none` models `json.JSONDecodeError`). -/
def analyze_text_for_pii (parse : String → Option AnalysisResult) :
    Except String String → AnalysisResult
  | Except.ok raw =>
    match parse raw with
    | some r => r
    | none =>
      { found_pii := true, categories := ["unknown"], details := [],
        recommendation := "Manual review recommended",
        raw_response := some raw, error := none }
  | Except.error e =>
    { found_pii := false, categories := [], details := [],
      recommendation := "Analysis failed - manual review required",
      raw_response := none, error := some e }

/-- Python `str.replace` on character lists, for a non-empty pattern
`p :: ps`: scan left to right, replace every non-overlapping occurrence, and
continue scanning after the inserted replacement.  `fuel` is an upper bound on
the scan steps (one list element is consumed per step, so `s.length` suffices);
it makes the recursion structural. -/
def pyReplaceAux (p : Char) (ps rep : List Char) : Nat → List Char → List Char
  | _, [] => []
  | 0, s => s
  | fuel + 1, c :: rest =>
    if (p :: ps).isPrefixOf (c :: rest) then
      rep ++ pyReplaceAux p ps rep fuel (rest.drop ps.length)
    else
      c :: pyReplaceAux p ps rep fuel rest

/-- Python `str.replace(pat, rep)` replacing all occurrences.  The empty
pattern never reaches this function in the embedded code (the applicator
guards on non-empty text), so it is mapped to the identity. -/
def pyReplace (s pat rep : String) : String :=
  match pat.data with
  | [] => s
  | p :: ps => String.mk (pyReplaceAux p ps rep.data s.data.length s.data)

/-- Python falsiness of `s.strip()`: the text is empty or whitespace only. -/
def pyStripEmpty (s : String) : Bool :=
  s.data.all Char.isWhitespace

/-- The redaction loop of `TextProcessor.apply_redactions`: fold over the
suggestion dictionaries, replacing all occurrences of each non-empty
`text` field by its `replacement` field in suggestion order. -/
def applyRedactionsText (content : String) (reds : List RedactionSuggestion) : String :=
  reds.foldl
    (fun acc red => if red.text = "" then acc else pyReplace acc red.text red.replacement)
    content

/-- One on-disk text file, seen through the two decodings the text processor
attempts: `utf8` is the result of `open(..., encoding=utf-8)` (`none` models a
`UnicodeDecodeError`), `latin1` the result of the latin-1 fallback read
(`none` models an OS-level read failure). -/
structure TextFile where
  utf8 : Option String
  latin1 : Option String
  deriving DecidableEq

/-- `TextProcessor.extract_text`: utf-8 first, latin-1 on decode failure,
a raised exception (error message) when both reads fail. -/
def TextProcessor.extract_text (f : TextFile) : Except String String :=
  match f.utf8 with
  | some content => Except.ok content
  | none =>
    match f.latin1 with
    | some content => Except.ok content
    | none => Except.error "Failed to read text file"

/-- `TextProcessor.apply_redactions`, content view: re-reads the input with
utf-8 only; a decode failure is caught and reported as `False` (here `none`);
otherwise the fully redacted content written to the output path is returned. -/
def TextProcessor.apply_redactions (f : TextFile) (reds : List RedactionSuggestion) :
    Option String :=
  match f.utf8 with
  | none => none
  | some content => some (applyRedactionsText content reds)

/-- Result object of one pipeline run (`ProcessingResult` in
base_processor.py), with the constructor defaults. -/
structure ProcessingResult where
  success : Bool
  message : String := ""
  extracted_text : String := ""
  output_file : Option String := none
  pii_found : Bool := false
  redaction_count : Nat := 0
  deriving DecidableEq

/-- `TextProcessor.process_file`.  The oracle is the `analyze` parameter
(`ollama_service.analyze_text_for_pii` on the extracted text), `t` the
configured confidence threshold, `output_path` the fresh temp path returned by
`create_temp_file`.  The second component of the result is the content of the
file at `output_path` afterwards: `none` when no file was created there,
`some s` when a file with content `s` exists (`create_temp_file` creates an
empty file at that path before `apply_redactions` runs). -/
def TextProcessor.process_file (f : TextFile) (analyze : String → AnalysisResult)
    (t : ℚ) (output_path : String) : ProcessingResult × Option String :=
  match TextProcessor.extract_text f with
  | Except.error e =>
    ({ success := false, message := "Error processing text file: " ++ e }, none)
  | Except.ok extracted =>
    if pyStripEmpty extracted then
      ({ success := false, message := "No text content found in file" }, none)
    else
      let pii_analysis := analyze extracted
      if pii_analysis.found_pii = false then
        ({ success := true, message := "No sensitive information detected in text file",
           extracted_text := extracted, pii_found := false }, none)
      else
        let sugg := generate_redaction_suggestions pii_analysis t
        if sugg.needs_redaction = false then
          ({ success := true, message := "No redactions needed based on confidence threshold",
             extracted_text := extracted, pii_found := true, redaction_count := 0 }, none)
        else
          match TextProcessor.apply_redactions f sugg.suggestions with
          | some redacted =>
            ({ success := true,
               message := "Successfully redacted " ++ toString sugg.suggestions.length
                 ++ " sensitive items",
               extracted_text := extracted, output_file := some output_path,
               pii_found := true, redaction_count := sugg.suggestions.length },
             some redacted)
          | none =>
            ({ success := false, message := "Failed to apply redactions to text file" },
             some "")

/-- `PDFProcessor.process_file`.  Extraction and the fitz-based applicator are
external: `extracted` is the outcome of `extract_text` (an `Except.error` is a
raised exception) and `applyOk` the boolean returned by `apply_redactions`. -/
def PDFProcessor.process_file (extracted : Except String String)
    (analyze : String → AnalysisResult) (t : ℚ) (applyOk : Bool)
    (output_path : String) : ProcessingResult :=
  match extracted with
  | Except.error e =>
    { success := false, message := "Error processing PDF: " ++ e }
  | Except.ok s =>
    if pyStripEmpty s then
      { success := false, message := "No text found in PDF file" }
    else
      let pii_analysis := analyze s
      if pii_analysis.found_pii = false then
        { success := true, message := "No sensitive information detected in PDF",
          extracted_text := s, pii_found := false }
      else
        let sugg := generate_redaction_suggestions pii_analysis t
        if sugg.needs_redaction = false then
          { success := true, message := "No redactions needed based on confidence threshold",
            extracted_text := s, pii_found := true, redaction_count := 0 }
        else if applyOk then
          { success := true,
            message := "Successfully redacted " ++ toString sugg.suggestions.length
              ++ " sensitive items",
            extracted_text := s, output_file := some output_path,
            pii_found := true, redaction_count := sugg.suggestions.length }
        else
          { success := false, message := "Failed to apply redactions to PDF" }

/-- One `easyocr` result triple: bounding quadrilateral, detected text,
detection confidence. -/
structure OCRFragment where
  box : List (ℚ × ℚ)
  text : String
  confidence : ℚ
  deriving DecidableEq

/-- A raster image as the applicator sees it: an opaque pixel payload plus the
axis-aligned black rectangles drawn onto it. -/
structure ImageData where
  base : String
  rects : List (ℚ × ℚ × ℚ × ℚ)
  deriving DecidableEq

/-- Minimum of a coordinate list (Python `min`; the quadrilaterals easyocr
returns always carry four points, so the empty default is never consulted). -/
def minCoord : List ℚ → ℚ
  | [] => 0
  | x :: xs => xs.foldl min x

/-- Maximum of a coordinate list (Python `max`). -/
def maxCoord : List ℚ → ℚ
  | [] => 0
  | x :: xs => xs.foldl max x

/-- Case-sensitive substring test on character lists (Python `in`). -/
def containsSub : List Char → List Char → Bool
  | s, pat =>
    pat.isPrefixOf s ||
      match s with
      | [] => false
      | _ :: rest => containsSub rest pat

/-- The drawing loop of `ImageProcessor.apply_redactions`: for every
suggestion with non-empty stripped text and every OCR fragment of confidence
above 0.5 whose lowercased text contains the lowercased suggestion text, draw
a filled rectangle over the axis-aligned extent of the fragment box. -/
def drawRedactions (img : ImageData) (ocr : List OCRFragment)
    (reds : List RedactionSuggestion) : ImageData :=
  reds.foldl
    (fun im red =>
      let text_to_redact := pyStrip red.text
      if text_to_redact = "" then im
      else
        ocr.foldl
          (fun im2 frag =>
            if frag.confidence > mkRat 1 2 &&
                containsSub (pyLower frag.text).data (pyLower text_to_redact).data then
              let xs := frag.box.map Prod.fst
              let ys := frag.box.map Prod.snd
              { im2 with rects := im2.rects ++ [(minCoord xs, minCoord ys, maxCoord xs, maxCoord ys)] }
            else im2)
          im)
    img

/-- `ImageProcessor.process_file`.  OCR extraction is external (`extracted`);
`img` is the result of `PIL.Image.open` on the input path (`none` models a
raised exception or missing library, which `apply_redactions` reports as
`False`); `ocr` the `reader.readtext` triples the applicator consults. -/
def ImageProcessor.process_file (extracted : Except String String)
    (analyze : String → AnalysisResult) (t : ℚ) (img : Option ImageData)
    (ocr : List OCRFragment) (output_path : String) : ProcessingResult :=
  match extracted with
  | Except.error e =>
    { success := false, message := "Error processing image: " ++ e }
  | Except.ok s =>
    if pyStripEmpty s then
      { success := true, message := "No text detected in image",
        extracted_text := "", pii_found := false }
    else
      let pii_analysis := analyze s
      if pii_analysis.found_pii = false then
        { success := true, message := "No sensitive information detected in image text",
          extracted_text := s, pii_found := false }
      else
        let sugg := generate_redaction_suggestions pii_analysis t
        if sugg.needs_redaction = false then
          { success := true, message := "No redactions needed based on confidence threshold",
            extracted_text := s, pii_found := true, redaction_count := 0 }
        else
          match img with
          | some _ =>
            { success := true,
              message := "Successfully redacted " ++ toString sugg.suggestions.length
                ++ " sensitive items from image",
              extracted_text := s, output_file := some output_path,
              pii_found := true, redaction_count := sugg.suggestions.length }
          | none =>
            { success := false, message := "Failed to apply redactions to image" }

/-- A file system directory as an association list from paths to contents;
a later entry shadows an earlier one with the same path. -/
abbrev FileStore (α : Type) : Type := List (String × α)

/-- Content of the file at path `p`, `none` when absent. -/
def readFile {α : Type} (store : FileStore α) (p : String) : Option α :=
  List.lookup p store

/-- Write content `v` at path `p` (create or overwrite). -/
def writeFile {α : Type} (store : FileStore α) (p : String) (v : α) : FileStore α :=
  (p, v) :: store

/-- A written text file: its utf-8 read returns the written string (the
redacted output is written with `encoding=utf-8`). -/
def writtenText (s : String) : TextFile :=
  { utf8 := some s, latin1 := some s }

/-- `TextProcessor.apply_redactions`, file-system view: open the input path
with utf-8 (a missing file or a decode failure is a caught exception returning
`False` with no write), apply all replacements, write the result to the
output path only. -/
def TextProcessor.apply_redactions_fs (store : FileStore TextFile)
    (input output : String) (reds : List RedactionSuggestion) :
    Bool × FileStore TextFile :=
  match readFile store input with
  | none => (false, store)
  | some f =>
    match f.utf8 with
    | none => (false, store)
    | some content =>
      (true, writeFile store output (writtenText (applyRedactionsText content reds)))

/-- `PDFProcessor.apply_redactions`, file-system view over an abstract
document type `Doc`: `fitz.open` on the input path (failure is a caught
exception returning `False` with no write), then the fitz page loop —
`search_for`, redaction annotations, `apply_redactions`, modelled by the
external `redact` parameter — and `doc.save` to the output path only. -/
def PDFProcessor.apply_redactions_fs {Doc : Type}
    (redact : Doc → List RedactionSuggestion → Doc) (store : FileStore Doc)
    (input output : String) (reds : List RedactionSuggestion) :
    Bool × FileStore Doc :=
  match readFile store input with
  | none => (false, store)
  | some doc =>
    (true, writeFile store output (redact doc reds))

/-- `ImageProcessor.apply_redactions`, file-system view: `PIL.Image.open` on
the input path (failure is a caught exception returning `False` with no
write), draw the redaction rectangles on the in-memory copy, and
`image.save` to the output path only. -/
def ImageProcessor.apply_redactions_fs (store : FileStore ImageData)
    (ocr : List OCRFragment) (input output : String)
    (reds : List RedactionSuggestion) : Bool × FileStore ImageData :=
  match readFile store input with
  | none => (false, store)
  | some img =>
    (true, writeFile store output (drawRedactions img ocr reds))

/-- Reading back a path distinct from the one just written sees the old store. -/
theorem readFile_writeFile_ne {α : Type} (store : FileStore α) (p q : String)
    (v : α) (h : p ≠ q) : readFile (writeFile store q v) p = readFile store p := by
  have hb : (p == q) = false := by
    simp [h]
  simp [readFile, writeFile, List.lookup, hb]

/-- Mirror of the fact that the suggestion loop is a filter followed by a map:
the accumulator fold of `generate_redaction_suggestions` equals
`filter` then `map`. -/
theorem suggestions_foldl_eq_filter_map (l : List Finding) (t : ℚ)
    (acc : List RedactionSuggestion) :
    l.foldl
      (fun acc d =>
        if t ≤ d.confidence then
          acc ++ [{ text := d.text, replacement := generate_replacement d.type,
                    type := d.type, confidence := d.confidence }]
        else acc) acc
    = acc ++ (l.filter (fun d => decide (t ≤ d.confidence))).map
        (fun d => { text := d.text, replacement := generate_replacement d.type,
                    type := d.type, confidence := d.confidence }) := by
  induction l generalizing acc with
  | nil => simp
  | cons d rest ih =>
    by_cases h : t ≤ d.confidence
    · simp [List.foldl_cons, h, ih]
    · simp [List.foldl_cons, h, ih]

/-- `needs_redaction` always equals the emptiness test of the suggestion
list, in both branches of `generate_redaction_suggestions`. -/
theorem needs_redaction_eq (r : AnalysisResult) (t : ℚ) :
    (generate_redaction_suggestions r t).needs_redaction
      = decide (0 < (generate_redaction_suggestions r t).suggestions.length) := by
  unfold generate_redaction_suggestions
  by_cases h : r.found_pii = false <;> simp [h]

/-- Sample findings of the round-trip testable property. -/
def wFind1 : Finding := { type := "name", text := "John Doe", confidence := mkRat 95 100 }

/-- Second sample finding of the round-trip testable property. -/
def wFind2 : Finding := { type := "email", text := "john@example.com", confidence := mkRat 9 10 }

/-- Sample analysis result holding the two sample findings. -/
def wResult : AnalysisResult :=
  { found_pii := true, categories := ["name", "email"], details := [wFind1, wFind2],
    recommendation := "review" }

/-- C1: for found_pii results the suggestions are exactly the findings whose
confidence reaches the threshold, in finding order, without deduplication,
each carrying the finding text, category, confidence and the table
replacement; needs_redaction equals the non-emptiness of the list; for
non-found_pii results the list is empty and needs_redaction is false. -/
theorem suggest_exact_filter_map (r : AnalysisResult) (t : ℚ) :
    (r.found_pii = true →
      (generate_redaction_suggestions r t).suggestions
        = (r.details.filter (fun d => decide (t ≤ d.confidence))).map
            (fun d => { text := d.text, replacement := generate_replacement d.type,
                        type := d.type, confidence := d.confidence })
      ∧ (generate_redaction_suggestions r t).needs_redaction
        = decide (0 < (generate_redaction_suggestions r t).suggestions.length))
    ∧ (r.found_pii = false →
      (generate_redaction_suggestions r t).suggestions = []
      ∧ (generate_redaction_suggestions r t).needs_redaction = false) := by
  constructor
  · intro h
    refine ⟨?_, needs_redaction_eq r t⟩
    unfold generate_redaction_suggestions
    simp [h, suggestions_foldl_eq_filter_map]
  · intro h
    simp [generate_redaction_suggestions, h]

/-- Witness for C1 at the sample analysis result and threshold 0.8. -/
theorem suggest_exact_filter_map_w :
    (generate_redaction_suggestions wResult (mkRat 8 10)).suggestions
      = (wResult.details.filter (fun d => decide (mkRat 8 10 ≤ d.confidence))).map
          (fun d => { text := d.text, replacement := generate_replacement d.type,
                      type := d.type, confidence := d.confidence })
    ∧ (generate_redaction_suggestions wResult (mkRat 8 10)).needs_redaction
      = decide (0 < (generate_redaction_suggestions wResult (mkRat 8 10)).suggestions.length) :=
  (suggest_exact_filter_map wResult (mkRat 8 10)).1 (by decide)

/-- C8: raising the threshold never increases the number of suggestions. -/
theorem threshold_monotone (r : AnalysisResult) (t1 t2 : ℚ) (h : t1 ≤ t2) :
    (generate_redaction_suggestions r t2).suggestions.length
      ≤ (generate_redaction_suggestions r t1).suggestions.length := by
  unfold generate_redaction_suggestions
  cases hf : r.found_pii with
  | false => simp [hf]
  | true =>
    simp only [hf, Bool.true_eq_false, if_false, suggestions_foldl_eq_filter_map,
      List.nil_append, List.length_map]
    apply List.Sublist.length_le
    apply List.monotone_filter_right
    intro a ha
    simp only [decide_eq_true_eq] at ha ⊢
    exact le_trans h ha

/-- Witness for C8 at the sample analysis result and thresholds 0.7 and 0.8. -/
theorem threshold_monotone_w :
    (generate_redaction_suggestions wResult (mkRat 8 10)).suggestions.length
      ≤ (generate_redaction_suggestions wResult (mkRat 7 10)).suggestions.length :=
  threshold_monotone wResult (mkRat 7 10) (mkRat 8 10) (by decide)

/-- Modelled from the spec: the uniform replacement pattern the claim asserts
for every taxonomy category, the category name uppercased inside the
brackets. -/
def specPatternReplacement (category : String) : String :=
  "[" ++ pyUpper category ++ " REDACTED]"

/-- C9 counterexample: for the taxonomy category credit_card the code
produces a card-specific literal, not the uppercased-category pattern the
claim asserts. -/
theorem replacement_pattern_cex :
    generate_replacement "credit_card" = "[CARD NUMBER REDACTED]"
    ∧ specPatternReplacement "credit_card" = "[CREDIT_CARD REDACTED]"
    ∧ generate_replacement "credit_card" ≠ specPatternReplacement "credit_card" := by
  decide

/-- C9 amended: the ten mapped categories produce the fixed literals of the
static table (five of which follow the uppercased-category pattern, while
credit_card, bank_account, id_number, date_of_birth and medical have their
own wording), and every category whose lowercasing is not a key of the table
produces the generic fallback. -/
theorem replacement_table_amended (c : String)
    (h : pyLower c ∉ replacements.map Prod.fst) :
    generate_replacement "name" = "[NAME REDACTED]"
    ∧ generate_replacement "email" = "[EMAIL REDACTED]"
    ∧ generate_replacement "phone" = "[PHONE REDACTED]"
    ∧ generate_replacement "address" = "[ADDRESS REDACTED]"
    ∧ generate_replacement "ssn" = "[SSN REDACTED]"
    ∧ generate_replacement "credit_card" = "[CARD NUMBER REDACTED]"
    ∧ generate_replacement "bank_account" = "[ACCOUNT NUMBER REDACTED]"
    ∧ generate_replacement "id_number" = "[ID NUMBER REDACTED]"
    ∧ generate_replacement "date_of_birth" = "[DOB REDACTED]"
    ∧ generate_replacement "medical" = "[MEDICAL INFO REDACTED]"
    ∧ generate_replacement c = "[SENSITIVE INFO REDACTED]" := by
  refine ⟨by decide, by decide, by decide, by decide, by decide, by decide,
    by decide, by decide, by decide, by decide, ?_⟩
  unfold generate_replacement
  simp only [replacements, List.map, List.mem_cons, List.not_mem_nil, or_false,
    not_or] at h
  obtain ⟨h1, h2, h3, h4, h5, h6, h7, h8, h9, h10⟩ := h
  simp [List.lookup, beq_eq_false_iff_ne.mpr h1, beq_eq_false_iff_ne.mpr h2,
    beq_eq_false_iff_ne.mpr h3, beq_eq_false_iff_ne.mpr h4,
    beq_eq_false_iff_ne.mpr h5, beq_eq_false_iff_ne.mpr h6,
    beq_eq_false_iff_ne.mpr h7, beq_eq_false_iff_ne.mpr h8,
    beq_eq_false_iff_ne.mpr h9, beq_eq_false_iff_ne.mpr h10]

/-- Witness for C9 amended at the unmapped category passport. -/
theorem replacement_table_amended_w :
    generate_replacement "passport" = "[SENSITIVE INFO REDACTED]" :=
  (replacement_table_amended "passport" (by decide)).2.2.2.2.2.2.2.2.2.2

/-- C3: the oracle adapter absorbs both failure modes: a response that fails
JSON parsing yields the degraded found_pii result with the unknown category,
no findings and the raw text kept, and a transport failure yields the
fail-open no-PII result with the diagnostic embedded; no exception escapes. -/
theorem analyze_error_handling (parse : String → Option AnalysisResult)
    (raw e : String) :
    (parse raw = none →
      analyze_text_for_pii parse (Except.ok raw)
        = { found_pii := true, categories := ["unknown"], details := [],
            recommendation := "Manual review recommended",
            raw_response := some raw, error := none })
    ∧ analyze_text_for_pii parse (Except.error e)
        = { found_pii := false, categories := [], details := [],
            recommendation := "Analysis failed - manual review required",
            raw_response := none, error := some e } := by
  constructor
  · intro h
    simp [analyze_text_for_pii, h]
  · rfl

/-- Witness for C3 at a parser that always fails. -/
theorem analyze_error_handling_w :
    analyze_text_for_pii (fun _ => none) (Except.ok "not json")
      = { found_pii := true, categories := ["unknown"], details := [],
          recommendation := "Manual review recommended",
          raw_response := some "not json", error := none } :=
  (analyze_error_handling (fun _ => none) "not json" "connection refused").1 rfl

/-- C2: the round-trip testable property on plain text: generating
suggestions for the two sample findings at threshold 0.8 and applying them to
the sample sentence yields the fully redacted sentence. -/
theorem round_trip_plain_text :
    applyRedactionsText "Contact John Doe at john@example.com"
      (generate_redaction_suggestions wResult (mkRat 8 10)).suggestions
      = "Contact [NAME REDACTED] at [EMAIL REDACTED]" := by
  decide

/-- C4: empty or whitespace-only extracted text makes the plain-text and PDF
pipelines fail, while the image pipeline reports success with no PII, zero
redactions, and no dependence on the oracle. -/
theorem empty_text_media_outcomes (f : TextFile) (s : String)
    (analyze a1 a2 : String → AnalysisResult) (t : ℚ) (out : String)
    (applyOk : Bool) (img : Option ImageData) (ocr : List OCRFragment)
    (hs : pyStripEmpty s = true) :
    (TextProcessor.extract_text f = Except.ok s →
      (TextProcessor.process_file f analyze t out).1.success = false)
    ∧ (PDFProcessor.process_file (Except.ok s) analyze t applyOk out).success = false
    ∧ (ImageProcessor.process_file (Except.ok s) analyze t img ocr out).success = true
    ∧ (ImageProcessor.process_file (Except.ok s) analyze t img ocr out).pii_found = false
    ∧ (ImageProcessor.process_file (Except.ok s) analyze t img ocr out).redaction_count = 0
    ∧ ImageProcessor.process_file (Except.ok s) a1 t img ocr out
        = ImageProcessor.process_file (Except.ok s) a2 t img ocr out := by
  refine ⟨?_, ?_, ?_, ?_, ?_, ?_⟩
  · intro hex
    unfold TextProcessor.process_file
    rw [hex]
    simp [hs]
  · simp [PDFProcessor.process_file, hs]
  · simp [ImageProcessor.process_file, hs]
  · simp [ImageProcessor.process_file, hs]
  · simp [ImageProcessor.process_file, hs]
  · simp [ImageProcessor.process_file, hs]

/-- Witness for C4 at a file holding a single space. -/
theorem empty_text_media_outcomes_w :
    (TextProcessor.process_file { utf8 := some " ", latin1 := some " " }
        (fun _ => wResult) (mkRat 8 10) "temp/out.txt").1.success = false
    ∧ (PDFProcessor.process_file (Except.ok " ") (fun _ => wResult) (mkRat 8 10)
        true "temp/out.pdf").success = false
    ∧ (ImageProcessor.process_file (Except.ok " ") (fun _ => wResult) (mkRat 8 10)
        none [] "temp/out.png").success = true :=
  have h := empty_text_media_outcomes { utf8 := some " ", latin1 := some " " } " "
    (fun _ => wResult) (fun _ => wResult) (fun _ => wResult) (mkRat 8 10)
    "temp/out.txt" true none [] (by decide)
  ⟨h.1 rfl, by
    have h2 := empty_text_media_outcomes { utf8 := some " ", latin1 := some " " } " "
      (fun _ => wResult) (fun _ => wResult) (fun _ => wResult) (mkRat 8 10)
      "temp/out.pdf" true none [] (by decide)
    exact h2.2.1, by
    have h3 := empty_text_media_outcomes { utf8 := some " ", latin1 := some " " } " "
      (fun _ => wResult) (fun _ => wResult) (fun _ => wResult) (mkRat 8 10)
      "temp/out.png" true none [] (by decide)
    exact h3.2.2.1⟩

/-- C5 for the plain-text pipeline alone (helper): artifact presence is
equivalent to success with a positive count, and on the redaction success
path the count is the number of suggestions handed to the applicator. -/
theorem text_artifact_iff (f : TextFile) (analyze : String → AnalysisResult)
    (t : ℚ) (out : String) :
    ((TextProcessor.process_file f analyze t out).1.output_file.isSome
      = ((TextProcessor.process_file f analyze t out).1.success
          && decide (0 < (TextProcessor.process_file f analyze t out).1.redaction_count)))
    ∧ ((TextProcessor.process_file f analyze t out).1.output_file.isSome = true →
        ∃ s, TextProcessor.extract_text f = Except.ok s
          ∧ (TextProcessor.process_file f analyze t out).1.redaction_count
              = (generate_redaction_suggestions (analyze s) t).suggestions.length) := by
  unfold TextProcessor.process_file
  cases hex : TextProcessor.extract_text f with
  | error e => simp
  | ok s =>
    by_cases h1 : pyStripEmpty s
    · simp [h1]
    · by_cases h2 : (analyze s).found_pii = false
      · simp [h1, h2]
      · by_cases h3 : (generate_redaction_suggestions (analyze s) t).needs_redaction = false
        · simp [h1, h2, h3]
        · cases happ : TextProcessor.apply_redactions f
              (generate_redaction_suggestions (analyze s) t).suggestions with
          | none => simp [h1, h2, h3, happ]
          | some redacted =>
            have hlen : 0 < (generate_redaction_suggestions (analyze s) t).suggestions.length := by
              have hne := needs_redaction_eq (analyze s) t
              rw [hne] at h3
              simp only [decide_eq_false_iff_not, not_not, not_lt,
                Nat.le_zero, List.length_eq_zero] at h3
              exact List.length_pos.mpr h3
            simp [h1, h2, h3, happ, hlen]

/-- C5 for the PDF pipeline alone (helper). -/
theorem pdf_artifact_iff (extracted : Except String String)
    (analyze : String → AnalysisResult) (t : ℚ) (applyOk : Bool) (out : String) :
    ((PDFProcessor.process_file extracted analyze t applyOk out).output_file.isSome
      = ((PDFProcessor.process_file extracted analyze t applyOk out).success
          && decide (0 < (PDFProcessor.process_file extracted analyze t applyOk out).redaction_count)))
    ∧ ((PDFProcessor.process_file extracted analyze t applyOk out).output_file.isSome = true →
        ∃ s, extracted = Except.ok s
          ∧ (PDFProcessor.process_file extracted analyze t applyOk out).redaction_count
              = (generate_redaction_suggestions (analyze s) t).suggestions.length) := by
  unfold PDFProcessor.process_file
  cases extracted with
  | error e => simp
  | ok s =>
    by_cases h1 : pyStripEmpty s
    · simp [h1]
    · by_cases h2 : (analyze s).found_pii = false
      · simp [h1, h2]
      · by_cases h3 : (generate_redaction_suggestions (analyze s) t).needs_redaction = false
        · simp [h1, h2, h3]
        · cases applyOk with
          | false => simp [h1, h2, h3]
          | true =>
            have hlen : 0 < (generate_redaction_suggestions (analyze s) t).suggestions.length := by
              have hne := needs_redaction_eq (analyze s) t
              rw [hne] at h3
              simp only [decide_eq_false_iff_not, not_not, not_lt,
                Nat.le_zero, List.length_eq_zero] at h3
              exact List.length_pos.mpr h3
            simp [h1, h2, h3, hlen]

/-- C5 for the image pipeline alone (helper). -/
theorem image_artifact_iff (extracted : Except String String)
    (analyze : String → AnalysisResult) (t : ℚ) (img : Option ImageData)
    (ocr : List OCRFragment) (out : String) :
    ((ImageProcessor.process_file extracted analyze t img ocr out).output_file.isSome
      = ((ImageProcessor.process_file extracted analyze t img ocr out).success
          && decide (0 < (ImageProcessor.process_file extracted analyze t img ocr out).redaction_count)))
    ∧ ((ImageProcessor.process_file extracted analyze t img ocr out).output_file.isSome = true →
        ∃ s, extracted = Except.ok s
          ∧ (ImageProcessor.process_file extracted analyze t img ocr out).redaction_count
              = (generate_redaction_suggestions (analyze s) t).suggestions.length) := by
  unfold ImageProcessor.process_file
  cases extracted with
  | error e => simp
  | ok s =>
    by_cases h1 : pyStripEmpty s
    · simp [h1]
    · by_cases h2 : (analyze s).found_pii = false
      · simp [h1, h2]
      · by_cases h3 : (generate_redaction_suggestions (analyze s) t).needs_redaction = false
        · simp [h1, h2, h3]
        · cases img with
          | none => simp [h1, h2, h3]
          | some i =>
            have hlen : 0 < (generate_redaction_suggestions (analyze s) t).suggestions.length := by
              have hne := needs_redaction_eq (analyze s) t
              rw [hne] at h3
              simp only [decide_eq_false_iff_not, not_not, not_lt,
                Nat.le_zero, List.length_eq_zero] at h3
              exact List.length_pos.mpr h3
            simp [h1, h2, h3, hlen]

/-- C5: for every run of the plain-text, PDF and image pipelines the outcome
carries an output artifact exactly when it is successful with a positive
redaction count, and on the successful redaction path the count equals the
number of suggestions passed to the applicator. -/
theorem outcome_artifact_iff (f : TextFile) (analyze : String → AnalysisResult)
    (t : ℚ) (out : String) (extrP extrI : Except String String)
    (applyOk : Bool) (img : Option ImageData) (ocr : List OCRFragment) :
    (((TextProcessor.process_file f analyze t out).1.output_file.isSome
        = ((TextProcessor.process_file f analyze t out).1.success
            && decide (0 < (TextProcessor.process_file f analyze t out).1.redaction_count)))
      ∧ ((TextProcessor.process_file f analyze t out).1.output_file.isSome = true →
          ∃ s, TextProcessor.extract_text f = Except.ok s
            ∧ (TextProcessor.process_file f analyze t out).1.redaction_count
                = (generate_redaction_suggestions (analyze s) t).suggestions.length))
    ∧ (((PDFProcessor.process_file extrP analyze t applyOk out).output_file.isSome
        = ((PDFProcessor.process_file extrP analyze t applyOk out).success
            && decide (0 < (PDFProcessor.process_file extrP analyze t applyOk out).redaction_count)))
      ∧ ((PDFProcessor.process_file extrP analyze t applyOk out).output_file.isSome = true →
          ∃ s, extrP = Except.ok s
            ∧ (PDFProcessor.process_file extrP analyze t applyOk out).redaction_count
                = (generate_redaction_suggestions (analyze s) t).suggestions.length))
    ∧ (((ImageProcessor.process_file extrI analyze t img ocr out).output_file.isSome
        = ((ImageProcessor.process_file extrI analyze t img ocr out).success
            && decide (0 < (ImageProcessor.process_file extrI analyze t img ocr out).redaction_count)))
      ∧ ((ImageProcessor.process_file extrI analyze t img ocr out).output_file.isSome = true →
          ∃ s, extrI = Except.ok s
            ∧ (ImageProcessor.process_file extrI analyze t img ocr out).redaction_count
                = (generate_redaction_suggestions (analyze s) t).suggestions.length)) :=
  ⟨text_artifact_iff f analyze t out,
   pdf_artifact_iff extrP analyze t applyOk out,
   image_artifact_iff extrI analyze t img ocr out⟩

/-- The sample sentence as a well-formed utf-8 text file. -/
def wFile : TextFile :=
  ⟨some "Contact John Doe at john@example.com", some "Contact John Doe at john@example.com"⟩

/-- Witness for C5 at a successful redaction run over the sample file. -/
theorem outcome_artifact_iff_w :
    ∃ s, TextProcessor.extract_text wFile = Except.ok s
      ∧ (TextProcessor.process_file wFile (fun _ => wResult) (mkRat 8 10)
          "temp/out.txt").1.redaction_count
          = (generate_redaction_suggestions ((fun _ => wResult) s) (mkRat 8 10)).suggestions.length :=
  (outcome_artifact_iff wFile (fun _ => wResult) (mkRat 8 10) "temp/out.txt"
    (Except.ok "x") (Except.ok "x") true none []).1.2 (by decide)

/-- An input file whose bytes decode under latin-1 but not utf-8, holding a
name the oracle flags. -/
def cexFile : TextFile := ⟨none, some "Call John Doe today"⟩

/-- An oracle that reports the sample name finding at confidence 0.9. -/
def cexAnalyze : String → AnalysisResult := fun _ =>
  { found_pii := true, categories := ["name"],
    details := [{ type := "name", text := "John Doe", confidence := mkRat 9 10 }],
    recommendation := "redact" }

/-- C6 counterexample: when the applicator cannot commit the batch (here the
utf-8 re-read of the input fails), the pipeline outcome is a failure, but the
empty placeholder file created by create_temp_file is still present at the
target output location afterwards, so an artifact does exist there. -/
theorem apply_failure_placeholder_cex :
    TextProcessor.apply_redactions cexFile
      (generate_redaction_suggestions (cexAnalyze "Call John Doe today")
        (mkRat 8 10)).suggestions = none
    ∧ (TextProcessor.process_file cexFile cexAnalyze (mkRat 8 10)
        "temp/out.txt").1.success = false
    ∧ (TextProcessor.process_file cexFile cexAnalyze (mkRat 8 10)
        "temp/out.txt").2 = some "" := by
  decide

/-- C6 amended: when the pipeline run fails, its outcome references no output
artifact, and the target output location afterwards holds either nothing or
the empty placeholder created in advance — never partially redacted
content. -/
theorem apply_failure_no_partial_output (f : TextFile)
    (analyze : String → AnalysisResult) (t : ℚ) (out : String)
    (h : (TextProcessor.process_file f analyze t out).1.success = false) :
    (TextProcessor.process_file f analyze t out).1.output_file = none
    ∧ ((TextProcessor.process_file f analyze t out).2 = none
        ∨ (TextProcessor.process_file f analyze t out).2 = some "") := by
  unfold TextProcessor.process_file at h ⊢
  cases hex : TextProcessor.extract_text f with
  | error e => simp
  | ok s =>
    rw [hex] at h
    by_cases h1 : pyStripEmpty s = true
    · simp [h1]
    · simp only [h1, if_false] at h ⊢
      by_cases h2 : (analyze s).found_pii = false
      · simp [h2] at h
      · simp only [h2, if_false] at h ⊢
        by_cases h3 : (generate_redaction_suggestions (analyze s) t).needs_redaction = false
        · simp [h3] at h
        · simp only [h3, if_false] at h ⊢
          cases happ : TextProcessor.apply_redactions f
              (generate_redaction_suggestions (analyze s) t).suggestions with
          | none => simp [happ]
          | some redacted => rw [happ] at h; simp at h

/-- Witness for C6 amended at the latin-1 counterexample file. -/
theorem apply_failure_no_partial_output_w :
    (TextProcessor.process_file cexFile cexAnalyze (mkRat 8 10)
        "temp/out.txt").1.output_file = none
    ∧ ((TextProcessor.process_file cexFile cexAnalyze (mkRat 8 10)
          "temp/out.txt").2 = none
        ∨ (TextProcessor.process_file cexFile cexAnalyze (mkRat 8 10)
            "temp/out.txt").2 = some "") :=
  apply_failure_no_partial_output cexFile cexAnalyze (mkRat 8 10) "temp/out.txt"
    (by decide)

/-- C7: no applicator mutates the input artifact: for each medium the apply
call leaves the content stored at the input path unchanged, writing only to
the distinct output path. -/
theorem apply_preserves_input {Doc : Type}
    (redact : Doc → List RedactionSuggestion → Doc)
    (sT : FileStore TextFile) (sP : FileStore Doc) (sI : FileStore ImageData)
    (ocr : List OCRFragment) (input output : String)
    (reds : List RedactionSuggestion) (h : input ≠ output) :
    readFile (TextProcessor.apply_redactions_fs sT input output reds).2 input
        = readFile sT input
    ∧ readFile (PDFProcessor.apply_redactions_fs redact sP input output reds).2 input
        = readFile sP input
    ∧ readFile (ImageProcessor.apply_redactions_fs sI ocr input output reds).2 input
        = readFile sI input := by
  refine ⟨?_, ?_, ?_⟩
  · unfold TextProcessor.apply_redactions_fs
    cases hr : readFile sT input with
    | none => simpa using hr
    | some f =>
      cases hu : f.utf8 with
      | none => simp [hu]; exact hr
      | some content =>
        simp [hu, readFile_writeFile_ne, h]
        exact hr
  · unfold PDFProcessor.apply_redactions_fs
    cases hr : readFile sP input with
    | none => simpa using hr
    | some doc =>
      simp [readFile_writeFile_ne, h]
      exact hr
  · unfold ImageProcessor.apply_redactions_fs
    cases hr : readFile sI input with
    | none => simpa using hr
    | some img =>
      simp [readFile_writeFile_ne, h]
      exact hr

/-- Witness for C7 at concrete one-file stores. -/
theorem apply_preserves_input_w :
    readFile (TextProcessor.apply_redactions_fs [("in.txt", wFile)] "in.txt"
        "temp/out.txt" []).2 "in.txt" = readFile [("in.txt", wFile)] "in.txt"
    ∧ readFile (PDFProcessor.apply_redactions_fs (fun (d : String) _ => d)
        [("in.pdf", "doc")] "in.txt" "temp/out.txt" []).2 "in.txt"
        = readFile [("in.pdf", "doc")] "in.txt"
    ∧ readFile (ImageProcessor.apply_redactions_fs [("in.png", ⟨"img", []⟩)] []
        "in.txt" "temp/out.txt" []).2 "in.txt"
        = readFile [("in.png", (⟨"img", []⟩ : ImageData))] "in.txt" :=
  apply_preserves_input (fun (d : String) _ => d) [("in.txt", wFile)]
    [("in.pdf", "doc")] [("in.png", ⟨"img", []⟩)] [] "in.txt" "temp/out.txt" []
    (by decide)

/-- C10: a file readable only through the latin-1 fallback extracts
successfully (returning the latin-1 decoding), yet the applicator, which
re-reads with utf-8 only, fails for every suggestion list; hence a run with
above-threshold findings on such a file ends as a failure even though
extraction succeeded. -/
theorem latin1_extract_ok_apply_fails (content : String)
    (analyze : String → AnalysisResult) (t : ℚ) (out : String)
    (hne : pyStripEmpty content = false)
    (hpii : (analyze content).found_pii = true)
    (hng : (generate_redaction_suggestions (analyze content) t).needs_redaction = true) :
    TextProcessor.extract_text ⟨none, some content⟩ = Except.ok content
    ∧ (∀ reds, reds ≠ [] →
        TextProcessor.apply_redactions ⟨none, some content⟩ reds = none)
    ∧ (TextProcessor.process_file ⟨none, some content⟩ analyze t out).1.success
        = false := by
  refine ⟨rfl, fun reds _ => rfl, ?_⟩
  unfold TextProcessor.process_file
  have hex : TextProcessor.extract_text ⟨none, some content⟩
      = Except.ok content := rfl
  rw [hex]
  simp [hne, hpii, hng, TextProcessor.apply_redactions]

/-- Witness for C10 at the latin-1 counterexample file. -/
theorem latin1_extract_ok_apply_fails_w :
    TextProcessor.extract_text ⟨none, some "Call John Doe today"⟩
      = Except.ok "Call John Doe today"
    ∧ (∀ reds, reds ≠ [] →
        TextProcessor.apply_redactions ⟨none, some "Call John Doe today"⟩ reds = none)
    ∧ (TextProcessor.process_file ⟨none, some "Call John Doe today"⟩ cexAnalyze
        (mkRat 8 10) "temp/out.txt").1.success = false :=
  latin1_extract_ok_apply_fails "Call John Doe today" cexAnalyze (mkRat 8 10)
    "temp/out.txt" (by decide) (by decide) (by decide)
